import Mathlib

/-!
# upload-bot: the recording upload pipeline and its retry loop

A shallow embedding of `main.go`: `uploadRecording` (one end-to-end attempt:
open and stat the file, create an upload session, send the bytes, attach the
stored file to the call) and `publishRecording` (the retry loop around it).

Everything the program does not define itself (the process environment, the
file system, the HTTP server behind `model.Client4`, `encoding/json`,
`filepath.Base`) is a field of `Sys`, over an arbitrary world state `σ`, so
every theorem holds for every behaviour of those collaborators.  Logging
(`slog`) and the deferred releases (`file.Close`, `resp.Body.Close`,
`cancelCtx`) do not influence control flow and are left out.

Go's `int`, `int64` and `time.Duration` are 64-bit two's-complement integers
(a 64-bit target is assumed for `int`): they are `Int` here, with `wrapInt64`
applied wherever the program performs arithmetic.
-/

namespace UploadBot

/-! ## Machine integers and durations -/

/-- Two's-complement wrap-around of a mathematical integer into `int64`. -/
def wrapInt64 (x : Int) : Int :=
  (x + 9223372036854775808) % 18446744073709551616 - 9223372036854775808

/-- The largest `int64`. -/
def maxInt64 : Int := 9223372036854775807

/-- The smallest `int64`. -/
def minInt64 : Int := -9223372036854775808

/-- Go's `time.Second`, in nanoseconds (the unit of `time.Duration`). -/
def second : Int := 1000000000

/-- Go's `time.Minute`, in nanoseconds. -/
def minute : Int := 60 * second

/-- The constant `httpRequestTimeout = 10 * time.Second`. -/
def httpRequestTimeout : Int := 10 * second

/-- The constant `httpUploadTimeout = 5 * time.Minute`. -/
def httpUploadTimeout : Int := 5 * minute

/-- The package-level variables `maxUploadRetryAttempts` (an `int`) and
`uploadRetryAttemptWaitTime` (a `time.Duration`). -/
structure RetryVars where
  maxUploadRetryAttempts : Int
  uploadRetryAttemptWaitTime : Int
  deriving DecidableEq, Repr

/-- The values the variables are initialised with: `20` and `5 * time.Second`. -/
def defaultVars : RetryVars :=
  { maxUploadRetryAttempts := 20, uploadRetryAttemptWaitTime := 5 * second }

/-! ## Errors and results -/

/-- A Go `error` value: either an error with a plain message, or
`fmt.Errorf("<msg>: %w", inner)`. -/
inductive GoError where
  | leaf (msg : String)
  | wrap (msg : String) (inner : GoError)
  deriving DecidableEq, Repr

/-- How a call of a `func() error` ends: it returns `nil`, it returns a non-nil
error, or it panics (nil pointer dereference). -/
inductive GoResult where
  | ok
  | err (e : GoError)
  | panicked
  deriving DecidableEq, Repr

/-- The only thing the retry loop looks at in a result. -/
inductive Kind where
  | succeeded
  | failed
  | crashed
  deriving DecidableEq, Repr

/-- Success, failure or crash of a result, forgetting the error value. -/
def GoResult.kind : GoResult → Kind
  | .ok => .succeeded
  | .err _ => .failed
  | .panicked => .crashed

/-- The error `publishRecording` returns on exhaustion:
`fmt.Errorf("max retry attempts reached, exiting")`. -/
def maxRetryError : GoError := .leaf "max retry attempts reached, exiting"

/-! ## Data model -/

/-- Byte strings (`[]byte`, request and response bodies). -/
abbrev Bytes := String

/-- An open `*os.File`. -/
structure OSFile where
  fd : Nat
  deriving DecidableEq, Repr

/-- The fields of `model.UploadSession` the program reads or writes. -/
structure UploadSession where
  Id : String
  ChannelId : String
  Filename : String
  FileSize : Int
  deriving DecidableEq, Repr

/-- The field of `model.FileInfo` the program reads. -/
structure FileInfo where
  Id : String
  deriving DecidableEq, Repr

/-- The type `public.RecordingJobInfo`. -/
structure RecordingJobInfo where
  JobID : String
  FileIDs : List String
  PostID : String
  deriving DecidableEq, Repr

/-- A request body: a byte slice (`DoAPIRequestBytes`) or a reader over an
open file (`DoAPIRequestReader`). -/
inductive Body where
  | bytes (payload : Bytes)
  | reader (file : OSFile)
  deriving DecidableEq, Repr

/-- One outbound call of the API client: method, URL, body, the timeout of the
context the call runs under, and the token the client was given. -/
structure Request where
  method : String
  url : String
  body : Body
  timeout : Int
  token : String
  deriving DecidableEq, Repr

/-- An HTTP response as handed back by the client when `err == nil`. -/
structure Response where
  body : Bytes
  deriving DecidableEq, Repr

/-- The collaborators of the program, over a world state `σ`.

* `getenv` is `os.Getenv`;
* `clientURL u` is `model.NewAPIv4Client(u).URL`;
* `filepathBase` is `filepath.Base`;
* `osOpen`, `fileStat` are `os.Open` and `file.Stat` followed by `info.Size()`;
* `marshalUploadSession`, `marshalRecordingJobInfo` are `json.Marshal`;
* `doAPIRequest` is `DoAPIRequestBytes` / `DoAPIRequestReader`: an error stands
  for a transport error or a non-success status;
* `decodeUploadSession resp us` is `json.NewDecoder(resp.Body).Decode(&us)` for
  the pointer `us`: on success the pointer may have been set to `nil` (`none`);
* `decodeFileInfo resp` is the same for a zero-valued `model.FileInfo`. -/
structure Sys (σ : Type) where
  getenv : σ → String → String
  clientURL : String → String
  filepathBase : String → String
  osOpen : String → σ → Except GoError OSFile × σ
  fileStat : OSFile → σ → Except GoError Int × σ
  marshalUploadSession : UploadSession → Except GoError Bytes
  marshalRecordingJobInfo : RecordingJobInfo → Except GoError Bytes
  doAPIRequest : Request → σ → Except GoError Response × σ
  decodeUploadSession : Response → UploadSession → Except GoError (Option UploadSession)
  decodeFileInfo : Response → Except GoError FileInfo

/-- What one call of `uploadRecording` leaves behind: how it ended, the world
afterwards, and the requests it issued, in order. -/
structure Attempt (σ : Type) where
  result : GoResult
  world : σ
  requests : List Request

/-- The local `recordingID` of `uploadRecording`. -/
def recordingID : String := "zc5m3rn79iydfycnoa9gmj3cwe"

/-- The local `pluginID` of `uploadRecording`. -/
def pluginID : String := "com.mattermost.calls"

/-- The local `apiURL`: `fmt.Sprintf("%s/plugins/%s/bot", client.URL, pluginID)`. -/
def apiURL {σ : Type} (sys : Sys σ) (s : σ) : String :=
  sys.clientURL (sys.getenv s "SITE_URL") ++ "/plugins/" ++ pluginID ++ "/bot"

/-- The session-create request: `POST apiURL+"/uploads"` with the payload. -/
def createRequest {σ : Type} (sys : Sys σ) (s : σ) (payload : Bytes) : Request :=
  { method := "POST", url := apiURL sys s ++ "/uploads", body := .bytes payload,
    timeout := httpRequestTimeout, token := sys.getenv s "AUTH_TOKEN" }

/-- The data-transfer request: `POST apiURL+"/uploads/"+us.Id` reading the file. -/
def dataRequest {σ : Type} (sys : Sys σ) (s : σ) (id : String) (file : OSFile) : Request :=
  { method := "POST", url := apiURL sys s ++ "/uploads/" ++ id, body := .reader file,
    timeout := httpUploadTimeout, token := sys.getenv s "AUTH_TOKEN" }

/-- The attach request: `POST apiURL/calls/<callID>/recordings` with the payload. -/
def attachRequest {σ : Type} (sys : Sys σ) (s : σ) (payload : Bytes) : Request :=
  { method := "POST",
    url := apiURL sys s ++ "/calls/" ++ sys.getenv s "CHANNEL_ID" ++ "/recordings",
    body := .bytes payload, timeout := httpRequestTimeout,
    token := sys.getenv s "AUTH_TOKEN" }

/-- The function `uploadRecording`, statement by statement.  The environment is
read once, on entry (lines 54-60); every later step threads the world. -/
def uploadRecording {σ : Type} (sys : Sys σ) (s : σ) : Attempt σ :=
  let outPath := sys.getenv s "FILEPATH"
  let callID := sys.getenv s "CHANNEL_ID"
  let postID := sys.getenv s "POST_ID"
  match sys.osOpen outPath s with
  | (.error e, s1) => ⟨.err (.wrap "failed to open file" e), s1, []⟩
  | (.ok file, s1) =>
  match sys.fileStat file s1 with
  | (.error e, s2) => ⟨.err (.wrap "failed to stat file" e), s2, []⟩
  | (.ok size, s2) =>
  let us : UploadSession :=
    { Id := "", ChannelId := callID, Filename := sys.filepathBase outPath, FileSize := size }
  match sys.marshalUploadSession us with
  | .error e => ⟨.err (.wrap "failed to encode payload" e), s2, []⟩
  | .ok payload =>
  let r1 := createRequest sys s payload
  match sys.doAPIRequest r1 s2 with
  | (.error e, s3) => ⟨.err (.wrap "failed to create upload" e), s3, [r1]⟩
  | (.ok resp1, s3) =>
  match sys.decodeUploadSession resp1 us with
  | .error e => ⟨.err (.wrap "failed to decode response body" e), s3, [r1]⟩
  | .ok none => ⟨.panicked, s3, [r1]⟩
  | .ok (some us1) =>
  let r2 := dataRequest sys s us1.Id file
  match sys.doAPIRequest r2 s3 with
  | (.error e, s4) => ⟨.err (.wrap "failed to upload data" e), s4, [r1, r2]⟩
  | (.ok resp2, s4) =>
  match sys.decodeFileInfo resp2 with
  | .error e => ⟨.err (.wrap "failed to decode response body" e), s4, [r1, r2]⟩
  | .ok fi =>
  match sys.marshalRecordingJobInfo
      { JobID := recordingID, FileIDs := [fi.Id], PostID := postID } with
  | .error e => ⟨.err (.wrap "failed to encode payload" e), s4, [r1, r2]⟩
  | .ok payload3 =>
  let r3 := attachRequest sys s payload3
  match sys.doAPIRequest r3 s4 with
  | (.error e, s5) => ⟨.err (.wrap "failed to save recording" e), s5, [r1, r2, r3]⟩
  | (.ok _, s5) => ⟨.ok, s5, [r1, r2, r3]⟩

/-! ## The retry loop -/

/-- What `publishRecording` does that can be observed: a call of
`uploadRecording` (with the requests it issued and how it ended) or a call of
`time.Sleep` with its argument. -/
inductive Event where
  | upload (requests : List Request) (result : GoResult)
  | sleep (waitTime : Int)
  deriving DecidableEq, Repr

/-- A finished call of `publishRecording`: how it ended, the world afterwards,
and everything it did, in order. -/
structure Run (σ : Type) where
  result : GoResult
  world : σ
  trace : List Event

/-- The `for` loop of `publishRecording`, entered with the local `attempt` and
the world `s`.  `fuel` bounds the number of iterations; `none` means the bound
was reached before the loop ended. -/
def publishRecordingFrom {σ : Type} (sys : Sys σ) (vars : RetryVars) :
    Nat → Int → σ → Option (Run σ)
  | 0, _, _ => none
  | fuel + 1, attempt, s =>
    let a := uploadRecording sys s
    match a.result with
    | .ok => some ⟨.ok, a.world, [.upload a.requests .ok]⟩
    | .panicked => some ⟨.panicked, a.world, [.upload a.requests .panicked]⟩
    | .err e =>
      if attempt = vars.maxUploadRetryAttempts then
        some ⟨.err maxRetryError, a.world, [.upload a.requests (.err e)]⟩
      else
        let attempt1 := wrapInt64 (attempt + 1)
        let waitTime := wrapInt64 (vars.uploadRetryAttemptWaitTime * attempt1)
        (publishRecordingFrom sys vars fuel attempt1 a.world).map fun r =>
          { r with trace := .upload a.requests (.err e) :: .sleep waitTime :: r.trace }

/-- The function `publishRecording`: the loop entered with `attempt = 0`. -/
def publishRecording {σ : Type} (sys : Sys σ) (vars : RetryVars) (fuel : Nat) (s : σ) :
    Option (Run σ) :=
  publishRecordingFrom sys vars fuel 0 s

/-! ## Observations on a run -/

/-- The number of calls of `uploadRecording` in a trace. -/
def invocations : List Event → Nat
  | [] => 0
  | .upload _ _ :: t => invocations t + 1
  | .sleep _ :: t => invocations t

/-- The arguments of the calls of `time.Sleep` in a trace, in order. -/
def sleeps : List Event → List Int
  | [] => []
  | .upload _ _ :: t => sleeps t
  | .sleep w :: t => w :: sleeps t

/-- The world in which the `i`-th call (from 0) of `uploadRecording` starts,
when every earlier call returned. -/
def worldBefore {σ : Type} (sys : Sys σ) (s : σ) : Nat → σ
  | 0 => s
  | i + 1 => worldBefore sys (uploadRecording sys s).world i

/-- How the `i`-th call (from 0) of `uploadRecording` ends. -/
def outcomeAt {σ : Type} (sys : Sys σ) (s : σ) (i : Nat) : GoResult :=
  (uploadRecording sys (worldBefore sys s i)).result

/-- The events of `n` failed iterations of the loop started with `attempt = a`
in world `s`: each is a call of `uploadRecording` followed by the sleep. -/
def failTrace {σ : Type} (sys : Sys σ) (d : Int) : σ → Nat → Nat → List Event
  | _, _, 0 => []
  | s, a, n + 1 =>
    .upload (uploadRecording sys s).requests (uploadRecording sys s).result ::
      .sleep (wrapInt64 (d * ((a : Int) + 1))) ::
      failTrace sys d (uploadRecording sys s).world (a + 1) n

/-- What the retry policy can be observed to do in a run: the result, the
number of calls of `uploadRecording`, and the waits. -/
structure Summary where
  result : GoResult
  invocations : Nat
  sleeps : List Int
  deriving DecidableEq, Repr

/-- The summary of a run. -/
def Run.summary {σ : Type} (r : Run σ) : Summary :=
  ⟨r.result, invocations r.trace, sleeps r.trace⟩

/-- The summary of a run that went through one more failed iteration. -/
def Summary.retried (w : Int) (m : Summary) : Summary :=
  ⟨m.result, m.invocations + 1, w :: m.sleeps⟩

/-- The session description `uploadRecording` builds before the first request. -/
def sessionFor {σ : Type} (sys : Sys σ) (s : σ) (size : Int) : UploadSession :=
  { Id := "", ChannelId := sys.getenv s "CHANNEL_ID",
    Filename := sys.filepathBase (sys.getenv s "FILEPATH"), FileSize := size }

/-- The job description `uploadRecording` builds before the last request. -/
def jobFor {σ : Type} (sys : Sys σ) (s : σ) (fi : FileInfo) : RecordingJobInfo :=
  { JobID := recordingID, FileIDs := [fi.Id], PostID := sys.getenv s "POST_ID" }

/-! ## A simulated world

A scripted server and file system, used to run the program on concrete
inputs.  The world counts the calls of `os.Open` and the requests sent. -/

/-- The state of the simulated world. -/
structure Sim where
  opens : Nat
  sent : Nat
  deriving DecidableEq, Repr

/-- The script of a simulated world: `failStep` names the step of the first
attempt's pipeline that fails (1 open, 2 stat, 3 create request, 4 decode
session, 5 data request, 6 decode file info, 7 attach request, anything else:
none); the first `openFailures` calls of `os.Open` fail; the server answers
with `sessionId` and `fileId`. -/
structure Script where
  failStep : Nat
  openFailures : Nat
  sessionId : String
  fileId : String

/-- The simulated collaborators for a script. -/
def sim (c : Script) : Sys Sim where
  getenv := fun _ k =>
    if k = "SITE_URL" then "http://mm" else
    if k = "AUTH_TOKEN" then "tok" else
    if k = "FILEPATH" then "/tmp/rec.mp4" else
    if k = "CHANNEL_ID" then "c1" else
    if k = "POST_ID" then "p1" else ""
  clientURL := fun u => u
  filepathBase := fun _ => "rec.mp4"
  osOpen := fun _ w =>
    if c.failStep = 1 ∨ w.opens < c.openFailures then
      (.error (.leaf "no such file"), { w with opens := w.opens + 1 })
    else (.ok ⟨3⟩, { w with opens := w.opens + 1 })
  fileStat := fun _ w =>
    if c.failStep = 2 then (.error (.leaf "stat failed"), w) else (.ok 1000, w)
  marshalUploadSession := fun us =>
    .ok (us.ChannelId ++ "," ++ us.Filename ++ "," ++ toString us.FileSize)
  marshalRecordingJobInfo := fun j =>
    .ok (j.JobID ++ "," ++ String.intercalate ";" j.FileIDs ++ "," ++ j.PostID)
  doAPIRequest := fun _ w =>
    if (c.failStep = 3 ∧ w.sent % 3 = 0) ∨ (c.failStep = 5 ∧ w.sent % 3 = 1)
        ∨ (c.failStep = 7 ∧ w.sent % 3 = 2) then
      (.error (.leaf "connection reset"), { w with sent := w.sent + 1 })
    else
      (.ok ⟨if w.sent % 3 = 0 then c.sessionId else if w.sent % 3 = 1 then c.fileId else ""⟩,
        { w with sent := w.sent + 1 })
  decodeUploadSession := fun resp us =>
    if c.failStep = 4 then .error (.leaf "unexpected EOF")
    else .ok (some { us with Id := resp.body })
  decodeFileInfo := fun resp =>
    if c.failStep = 6 then .error (.leaf "unexpected EOF") else .ok ⟨resp.body⟩

/-- The world the simulations start in. -/
def sim0 : Sim := ⟨0, 0⟩

/-- Everything works; the server assigns session `s1` and file `f1`. -/
def scriptOk : Script := ⟨0, 0, "s1", "f1"⟩

/-- Step `k` of every first attempt fails (steps 1 and 2: of every attempt). -/
def scriptFailAt (k : Nat) : Script := ⟨k, 0, "s1", "f1"⟩

/-- The file cannot be opened the first two times; then everything works. -/
def scriptTwoFailures : Script := ⟨0, 2, "s1", "f1"⟩

/-- Everything works, but the server's session descriptor has no identifier. -/
def scriptNoSessionId : Script := ⟨0, 0, "", "f1"⟩

/-- Everything works, but the server's file descriptor has no identifier. -/
def scriptNoFileId : Script := ⟨0, 0, "s1", ""⟩

/-- Everything works, and the server answers the create request with the JSON
literal `null`: `Decode(&us)` returns no error and sets the pointer `us` to
`nil`. -/
def simNullSession : Sys Sim :=
  { sim ⟨0, 0, "null", "f1"⟩ with
    decodeUploadSession := fun resp us =>
      if resp.body = "null" then .ok none else .ok (some { us with Id := resp.body }) }

/-! ## Lemmas on machine arithmetic -/

theorem wrapInt64_of_inRange (x : Int) (hlo : minInt64 ≤ x) (hhi : x ≤ maxInt64) :
    wrapInt64 x = x := by
  unfold wrapInt64
  unfold minInt64 at hlo
  unfold maxInt64 at hhi
  omega

theorem wrapInt64_succ_of_lt (a N : Nat) (ha : a < N) (hN : (N : Int) ≤ maxInt64) :
    wrapInt64 ((a : Int) + 1) = ((a + 1 : Nat) : Int) := by
  have h := wrapInt64_of_inRange ((a : Int) + 1)
    (by unfold minInt64; omega) (by unfold maxInt64 at *; omega)
  rw [h]; push_cast; rfl

/-- Without overflow at `N`, no product `d * k` with `k ≤ N` overflows. -/
theorem mul_inRange (d : Int) (k N : Nat) (hk : k ≤ N)
    (hlo : minInt64 ≤ d * N) (hhi : d * N ≤ maxInt64) :
    minInt64 ≤ d * k ∧ d * k ≤ maxInt64 := by
  have hkN : (k : Int) ≤ (N : Int) := by exact_mod_cast hk
  have hk0 : (0 : Int) ≤ (k : Int) := by positivity
  have hmin : minInt64 ≤ 0 := by unfold minInt64; omega
  have hmax : (0 : Int) ≤ maxInt64 := by unfold maxInt64; omega
  rcases le_total 0 d with hd | hd
  · have h1 : d * k ≤ d * N := mul_le_mul_of_nonneg_left hkN hd
    have h2 : 0 ≤ d * k := mul_nonneg hd hk0
    exact ⟨le_trans hmin h2, le_trans h1 hhi⟩
  · have h1 : d * N ≤ d * k := mul_le_mul_of_nonpos_left hkN hd
    have h2 : d * k ≤ 0 := mul_nonpos_of_nonpos_of_nonneg hd hk0
    exact ⟨le_trans hlo h1, le_trans h2 hmax⟩

/-! ## Lemmas on the loop -/

theorem kind_failed_iff (r : GoResult) : r.kind = .failed ↔ ∃ e, r = .err e := by
  cases r <;> simp [GoResult.kind]

theorem outcomeAt_zero {σ : Type} (sys : Sys σ) (s : σ) :
    outcomeAt sys s 0 = (uploadRecording sys s).result := rfl

theorem outcomeAt_succ {σ : Type} (sys : Sys σ) (s : σ) (i : Nat) :
    outcomeAt sys s (i + 1) = outcomeAt sys (uploadRecording sys s).world i := rfl

theorem loop_ok {σ : Type} (sys : Sys σ) (vars : RetryVars) (fuel : Nat) (a : Int) (s : σ)
    (h : (uploadRecording sys s).result = .ok) :
    publishRecordingFrom sys vars (fuel + 1) a s =
      some ⟨.ok, (uploadRecording sys s).world,
        [.upload (uploadRecording sys s).requests .ok]⟩ := by
  simp only [publishRecordingFrom, h]

theorem loop_panicked {σ : Type} (sys : Sys σ) (vars : RetryVars) (fuel : Nat) (a : Int)
    (s : σ) (h : (uploadRecording sys s).result = .panicked) :
    publishRecordingFrom sys vars (fuel + 1) a s =
      some ⟨.panicked, (uploadRecording sys s).world,
        [.upload (uploadRecording sys s).requests .panicked]⟩ := by
  simp only [publishRecordingFrom, h]

theorem loop_exhausted {σ : Type} (sys : Sys σ) (vars : RetryVars) (fuel : Nat) (a : Int)
    (s : σ) (e : GoError) (h : (uploadRecording sys s).result = .err e)
    (ha : a = vars.maxUploadRetryAttempts) :
    publishRecordingFrom sys vars (fuel + 1) a s =
      some ⟨.err maxRetryError, (uploadRecording sys s).world,
        [.upload (uploadRecording sys s).requests (.err e)]⟩ := by
  simp only [publishRecordingFrom, h, ha, if_true]

theorem loop_retry {σ : Type} (sys : Sys σ) (vars : RetryVars) (fuel : Nat) (a : Int)
    (s : σ) (e : GoError) (h : (uploadRecording sys s).result = .err e)
    (ha : a ≠ vars.maxUploadRetryAttempts) :
    publishRecordingFrom sys vars (fuel + 1) a s =
      (publishRecordingFrom sys vars fuel (wrapInt64 (a + 1)) (uploadRecording sys s).world).map
        fun r =>
          { r with
            trace :=
              Event.upload (uploadRecording sys s).requests (.err e) ::
                Event.sleep (wrapInt64 (vars.uploadRetryAttemptWaitTime * wrapInt64 (a + 1))) ::
                r.trace } := by
  simp only [publishRecordingFrom, h, ha, if_false]

/-- After `n` failed calls the loop is where it would be had it been entered
with `attempt = a + n`, and it has left `failTrace` behind. -/
theorem loop_fail_steps {σ : Type} (sys : Sys σ) (N : Nat) (d : Int)
    (hN : (N : Int) ≤ maxInt64) (n : Nat) :
    ∀ (a : Nat) (s : σ) (fuel : Nat), a + n ≤ N →
      (∀ i, i < n → (outcomeAt sys s i).kind = .failed) →
      publishRecordingFrom sys ⟨N, d⟩ (fuel + n) a s =
        (publishRecordingFrom sys ⟨N, d⟩ fuel ((a + n : Nat) : Int) (worldBefore sys s n)).map
          fun r => { r with trace := failTrace sys d s a n ++ r.trace } := by
  induction n with
  | zero =>
    intro a s fuel _ _
    simp [failTrace, worldBefore]
  | succ n ih =>
    intro a s fuel han hfail
    obtain ⟨e, he⟩ := (kind_failed_iff _).1 (hfail 0 (Nat.succ_pos n))
    rw [outcomeAt_zero] at he
    have hne : (a : Int) ≠ (⟨N, d⟩ : RetryVars).maxUploadRetryAttempts := by
      show (a : Int) ≠ (N : Int)
      omega
    have hstep : fuel + (n + 1) = (fuel + n) + 1 := by omega
    rw [hstep, loop_retry sys ⟨N, d⟩ (fuel + n) a s e he hne,
      wrapInt64_succ_of_lt a N (by omega) hN]
    have hrec := ih (a + 1) (uploadRecording sys s).world fuel (by omega)
      (fun i hi => by
        have := hfail (i + 1) (by omega)
        rwa [outcomeAt_succ] at this)
    rw [hrec]
    have hidx : a + 1 + n = a + (n + 1) := by omega
    simp only [Option.map_map, hidx, worldBefore, failTrace, he]
    congr 1

theorem invocations_append (t u : List Event) :
    invocations (t ++ u) = invocations t + invocations u := by
  induction t with
  | nil => simp [invocations]
  | cons x t ih => cases x <;> simp [invocations, ih]; omega

theorem sleeps_append (t u : List Event) : sleeps (t ++ u) = sleeps t ++ sleeps u := by
  induction t with
  | nil => simp [sleeps]
  | cons x t ih => cases x <;> simp [sleeps, ih]

theorem invocations_failTrace {σ : Type} (sys : Sys σ) (d : Int) (n : Nat) :
    ∀ (s : σ) (a : Nat), invocations (failTrace sys d s a n) = n := by
  induction n with
  | zero => intro s a; rfl
  | succ n ih => intro s a; simp [failTrace, invocations, ih]

theorem sleeps_failTrace {σ : Type} (sys : Sys σ) (d : Int) (n : Nat) :
    ∀ (s : σ) (a : Nat), sleeps (failTrace sys d s a n) =
      (List.range n).map fun i => wrapInt64 (d * (((a + i + 1 : Nat)) : Int)) := by
  induction n with
  | zero => intro s a; rfl
  | succ n ih =>
    intro s a
    simp only [failTrace, sleeps, ih, List.range_succ_eq_map, List.map_cons, List.map_map]
    refine congrArg₂ _ (by push_cast; ring_nf) ?_
    apply List.map_congr_left
    intro i _
    simp only [Function.comp]
    congr 2
    push_cast
    ring

/-- The sum of the first `n` exact waits. -/
theorem sum_exact_waits (d : Int) (n : Nat) :
    2 * ((List.range n).map fun i => d * (((i + 1 : Nat)) : Int)).sum = d * n * (n + 1) := by
  induction n with
  | zero => simp
  | succ n ih =>
    rw [List.range_succ, List.map_append, List.sum_append, mul_add, ih]
    simp only [List.map_cons, List.map_nil, List.sum_cons, List.sum_nil]
    push_cast
    ring

/-- The loop looks at nothing but the kind of each outcome. -/
theorem loop_summary_congr {σ τ : Type} (sys1 : Sys σ) (sys2 : Sys τ) (vars : RetryVars)
    (fuel : Nat) :
    ∀ (a : Int) (s1 : σ) (s2 : τ),
      (∀ i, (outcomeAt sys1 s1 i).kind = (outcomeAt sys2 s2 i).kind) →
      (publishRecordingFrom sys1 vars fuel a s1).map Run.summary =
        (publishRecordingFrom sys2 vars fuel a s2).map Run.summary := by
  induction fuel with
  | zero => intro a s1 s2 _; rfl
  | succ fuel ih =>
    intro a s1 s2 h
    have h0 := h 0
    rw [outcomeAt_zero, outcomeAt_zero] at h0
    have hrest : ∀ i, (outcomeAt sys1 (uploadRecording sys1 s1).world i).kind =
        (outcomeAt sys2 (uploadRecording sys2 s2).world i).kind := by
      intro i
      have := h (i + 1)
      rwa [outcomeAt_succ, outcomeAt_succ] at this
    cases h1 : (uploadRecording sys1 s1).result with
    | ok =>
      cases h2 : (uploadRecording sys2 s2).result with
      | ok =>
        rw [loop_ok sys1 vars fuel a s1 h1, loop_ok sys2 vars fuel a s2 h2]
        rfl
      | err e => rw [h1, h2] at h0; cases h0
      | panicked => rw [h1, h2] at h0; cases h0
    | panicked =>
      cases h2 : (uploadRecording sys2 s2).result with
      | ok => rw [h1, h2] at h0; cases h0
      | err e => rw [h1, h2] at h0; cases h0
      | panicked =>
        rw [loop_panicked sys1 vars fuel a s1 h1, loop_panicked sys2 vars fuel a s2 h2]
        rfl
    | err e1 =>
      cases h2 : (uploadRecording sys2 s2).result with
      | ok => rw [h1, h2] at h0; cases h0
      | panicked => rw [h1, h2] at h0; cases h0
      | err e2 =>
        by_cases ha : a = vars.maxUploadRetryAttempts
        · rw [loop_exhausted sys1 vars fuel a s1 e1 h1 ha,
            loop_exhausted sys2 vars fuel a s2 e2 h2 ha]
          rfl
        · rw [loop_retry sys1 vars fuel a s1 e1 h1 ha, loop_retry sys2 vars fuel a s2 e2 h2 ha,
            Option.map_map, Option.map_map]
          have key := congrArg (Option.map (Summary.retried
            (wrapInt64 (vars.uploadRetryAttemptWaitTime * wrapInt64 (a + 1)))))
            (ih (wrapInt64 (a + 1)) _ _ hrest)
          rw [Option.map_map, Option.map_map] at key
          exact key

/-- The result of the loop is `nil`, a panic, or the one exhaustion error. -/
theorem loop_result {σ : Type} (sys : Sys σ) (vars : RetryVars) (fuel : Nat) :
    ∀ (a : Int) (s : σ) (run : Run σ), publishRecordingFrom sys vars fuel a s = some run →
      run.result = .ok ∨ run.result = .panicked ∨ run.result = .err maxRetryError := by
  induction fuel with
  | zero => intro a s run h; cases h
  | succ fuel ih =>
    intro a s run h
    cases h1 : (uploadRecording sys s).result with
    | ok =>
      rw [loop_ok sys vars fuel a s h1] at h
      cases h; exact Or.inl rfl
    | panicked =>
      rw [loop_panicked sys vars fuel a s h1] at h
      cases h; exact Or.inr (Or.inl rfl)
    | err e =>
      by_cases ha : a = vars.maxUploadRetryAttempts
      · rw [loop_exhausted sys vars fuel a s e h1 ha] at h
        cases h; exact Or.inr (Or.inr rfl)
      · rw [loop_retry sys vars fuel a s e h1 ha] at h
        obtain ⟨r, hr, rfl⟩ := Option.map_eq_some'.1 h
        exact ih _ _ r hr

/-- Termination and shape of the loop, entered with `attempt = a ≤ N`: uploads
and sleeps alternate, and the sleep after the `(j+1)`-th upload is the wrapped
product of the base delay and `a + j + 1`. -/
theorem loop_shape {σ : Type} (sys : Sys σ) (N : Nat) (d : Int) (hN : (N : Int) ≤ maxInt64)
    (fuel : Nat) :
    ∀ (a : Nat) (s : σ), a ≤ N → N - a < fuel →
      ∃ run, publishRecordingFrom sys ⟨N, d⟩ fuel a s = some run ∧
        (∃ q r, run.trace[0]? = some (.upload q r)) ∧
        run.trace.length + 1 = 2 * invocations run.trace ∧
        invocations run.trace + a ≤ N + 1 ∧
        sleeps run.trace = ((List.range (invocations run.trace - 1)).map fun i =>
          wrapInt64 (d * (((a + i + 1 : Nat)) : Int))) ∧
        ∀ j, j + 1 < invocations run.trace →
          run.trace[2 * j + 1]? = some (.sleep (wrapInt64 (d * (((a + j + 1 : Nat)) : Int)))) ∧
          ∃ q r, run.trace[2 * j + 2]? = some (.upload q r) := by
  induction fuel with
  | zero => intro a s _ h; omega
  | succ fuel ih =>
    intro a s haN hfuel
    cases h1 : (uploadRecording sys s).result with
    | ok =>
      refine ⟨_, loop_ok sys _ fuel a s h1, ⟨_, _, rfl⟩, rfl, ?_, rfl, ?_⟩
      · simp [invocations]; omega
      · intro j hj; simp [invocations] at hj
    | panicked =>
      refine ⟨_, loop_panicked sys _ fuel a s h1, ⟨_, _, rfl⟩, rfl, ?_, rfl, ?_⟩
      · simp [invocations]; omega
      · intro j hj; simp [invocations] at hj
    | err e =>
      by_cases ha : (a : Int) = (⟨N, d⟩ : RetryVars).maxUploadRetryAttempts
      · refine ⟨_, loop_exhausted sys _ fuel a s e h1 ha, ⟨_, _, rfl⟩, rfl, ?_, rfl, ?_⟩
        · simp [invocations]; omega
        · intro j hj; simp [invocations] at hj
      · have haN' : a < N := by
          have : (a : Int) ≠ (N : Int) := ha
          omega
        obtain ⟨r, hr, h0, hlen, hinv, hsl, hpos⟩ :=
          ih (a + 1) (uploadRecording sys s).world (by omega) (by omega)
        rw [loop_retry sys ⟨N, d⟩ fuel a s e h1 ha, wrapInt64_succ_of_lt a N haN' hN, hr]
        refine ⟨_, rfl, ⟨_, _, rfl⟩, ?_, ?_, ?_, ?_⟩
        · simp only [List.length_cons, invocations]; omega
        · simp only [invocations]; omega
        · have hpos1 : 0 < invocations r.trace := by omega
          obtain ⟨m, hm⟩ : ∃ m, invocations r.trace = m + 1 := ⟨invocations r.trace - 1, by omega⟩
          simp only [invocations, sleeps, hsl, hm, Nat.add_sub_cancel, List.range_succ_eq_map,
            List.map_cons, List.map_map]
          refine congrArg₂ _ rfl ?_
          apply List.map_congr_left
          intro i _
          simp only [Function.comp]
          congr 3
          omega
        · intro j hj
          simp only [invocations] at hj
          cases j with
          | zero =>
            refine ⟨by simp, ?_⟩
            simpa using h0
          | succ j =>
            obtain ⟨hs, hu⟩ := hpos j (by omega)
            have e1 : 2 * (j + 1) + 1 = (2 * j + 1) + 1 + 1 := by omega
            have e2 : 2 * (j + 1) + 2 = (2 * j + 2) + 1 + 1 := by omega
            have e3 : a + 1 + j + 1 = a + (j + 1) + 1 := by omega
            rw [e1, e2, List.getElem?_cons_succ, List.getElem?_cons_succ,
              List.getElem?_cons_succ, List.getElem?_cons_succ]
            rw [e3] at hs
            exact ⟨hs, hu⟩

/-! ## Lemmas on one attempt -/

/-- The `apiURL` spelled out. -/
theorem apiURL_eq {σ : Type} (sys : Sys σ) (s : σ) :
    apiURL sys s =
      sys.clientURL (sys.getenv s "SITE_URL") ++ "/plugins/com.mattermost.calls/bot" := by
  simp only [apiURL, pluginID, String.append_assoc]
  rfl

theorem upload_all_ok {σ : Type} (sys : Sys σ) (s s1 s2 s3 s4 s5 : σ) (file : OSFile)
    (size : Int) (payload payload3 : Bytes) (resp1 resp2 resp3 : Response)
    (us1 : UploadSession) (fi : FileInfo)
    (hopen : sys.osOpen (sys.getenv s "FILEPATH") s = (.ok file, s1))
    (hstat : sys.fileStat file s1 = (.ok size, s2))
    (hmar : sys.marshalUploadSession (sessionFor sys s size) = .ok payload)
    (hcreate : sys.doAPIRequest (createRequest sys s payload) s2 = (.ok resp1, s3))
    (hdec : sys.decodeUploadSession resp1 (sessionFor sys s size) = .ok (some us1))
    (hdata : sys.doAPIRequest (dataRequest sys s us1.Id file) s3 = (.ok resp2, s4))
    (hfi : sys.decodeFileInfo resp2 = .ok fi)
    (hmar3 : sys.marshalRecordingJobInfo (jobFor sys s fi) = .ok payload3)
    (hattach : sys.doAPIRequest (attachRequest sys s payload3) s4 = (.ok resp3, s5)) :
    uploadRecording sys s =
      ⟨.ok, s5, [createRequest sys s payload, dataRequest sys s us1.Id file,
        attachRequest sys s payload3]⟩ := by
  simp only [sessionFor, jobFor] at *
  simp only [uploadRecording, hopen, hstat, hmar, hcreate, hdec, hdata, hfi, hmar3, hattach]

/-- Every list of requests `uploadRecording` can issue, with where it comes
from: nothing, the create request, create and data, or all three. -/
theorem upload_requests_cases {σ : Type} (sys : Sys σ) (s : σ) :
    (uploadRecording sys s).requests = [] ∨
    ∃ file s1 size s2 payload,
      sys.osOpen (sys.getenv s "FILEPATH") s = (.ok file, s1) ∧
      sys.fileStat file s1 = (.ok size, s2) ∧
      sys.marshalUploadSession (sessionFor sys s size) = .ok payload ∧
      ((uploadRecording sys s).requests = [createRequest sys s payload] ∨
      ∃ resp1 s3 us1,
        sys.doAPIRequest (createRequest sys s payload) s2 = (.ok resp1, s3) ∧
        sys.decodeUploadSession resp1 (sessionFor sys s size) = .ok (some us1) ∧
        ((uploadRecording sys s).requests =
            [createRequest sys s payload, dataRequest sys s us1.Id file] ∨
        ∃ resp2 s4 fi payload3,
          sys.doAPIRequest (dataRequest sys s us1.Id file) s3 = (.ok resp2, s4) ∧
          sys.decodeFileInfo resp2 = .ok fi ∧
          sys.marshalRecordingJobInfo (jobFor sys s fi) = .ok payload3 ∧
          (uploadRecording sys s).requests =
            [createRequest sys s payload, dataRequest sys s us1.Id file,
              attachRequest sys s payload3])) := by
  rcases hopen : sys.osOpen (sys.getenv s "FILEPATH") s with ⟨_ | file, s1⟩
  · left; simp only [uploadRecording, hopen]
  rcases hstat : sys.fileStat file s1 with ⟨_ | size, s2⟩
  · left; simp only [uploadRecording, hopen, hstat]
  rcases hmar : sys.marshalUploadSession (sessionFor sys s size) with _ | payload
  · left
    simp only [sessionFor] at hmar
    simp only [uploadRecording, hopen, hstat, hmar]
  refine Or.inr ⟨file, s1, size, s2, payload, rfl, hstat, hmar, ?_⟩
  simp only [sessionFor] at hmar
  rcases hcreate : sys.doAPIRequest (createRequest sys s payload) s2 with ⟨_ | resp1, s3⟩
  · left; simp only [uploadRecording, hopen, hstat, hmar, hcreate]
  rcases hdec : sys.decodeUploadSession resp1 (sessionFor sys s size) with _ | _ | us1
  · left
    simp only [sessionFor] at hdec
    simp only [uploadRecording, hopen, hstat, hmar, hcreate, hdec]
  · left
    simp only [sessionFor] at hdec
    simp only [uploadRecording, hopen, hstat, hmar, hcreate, hdec]
  refine Or.inr ⟨resp1, s3, us1, rfl, hdec, ?_⟩
  simp only [sessionFor] at hdec
  rcases hdata : sys.doAPIRequest (dataRequest sys s us1.Id file) s3 with ⟨_ | resp2, s4⟩
  · left; simp only [uploadRecording, hopen, hstat, hmar, hcreate, hdec, hdata]
  rcases hfi : sys.decodeFileInfo resp2 with _ | fi
  · left; simp only [uploadRecording, hopen, hstat, hmar, hcreate, hdec, hdata, hfi]
  rcases hmar3 : sys.marshalRecordingJobInfo (jobFor sys s fi) with _ | payload3
  · left
    simp only [jobFor] at hmar3
    simp only [uploadRecording, hopen, hstat, hmar, hcreate, hdec, hdata, hfi, hmar3]
  refine Or.inr ⟨resp2, s4, fi, payload3, rfl, hfi, hmar3, ?_⟩
  simp only [jobFor] at hmar3
  rcases hatt : sys.doAPIRequest (attachRequest sys s payload3) s4 with ⟨_ | resp3, s5⟩
  · simp only [uploadRecording, hopen, hstat, hmar, hcreate, hdec, hdata, hfi, hmar3, hatt]
  · simp only [uploadRecording, hopen, hstat, hmar, hcreate, hdec, hdata, hfi, hmar3, hatt]

theorem createRequest_ne_dataRequest {σ : Type} (sys : Sys σ) (s : σ) (p id : String)
    (f : OSFile) : createRequest sys s p ≠ dataRequest sys s id f := by
  intro h
  have := congrArg Request.body h
  simp [createRequest, dataRequest] at this

theorem attachRequest_ne_dataRequest {σ : Type} (sys : Sys σ) (s : σ) (p id : String)
    (f : OSFile) : attachRequest sys s p ≠ dataRequest sys s id f := by
  intro h
  have := congrArg Request.body h
  simp [attachRequest, dataRequest] at this

theorem createRequest_ne_attachRequest {σ : Type} (sys : Sys σ) (s : σ) (p q : String) :
    createRequest sys s p ≠ attachRequest sys s q := by
  intro h
  have h1 := congrArg (fun r => (Request.url r).data) h
  simp only [createRequest, attachRequest, String.data_append, List.append_assoc,
    List.append_cancel_left_eq] at h1
  have h2 := congrArg (fun l => l.get? 1) h1
  simp at h2

/-- No request is issued twice within one call of `uploadRecording`. -/
theorem upload_requests_nodup {σ : Type} (sys : Sys σ) (s : σ) :
    (uploadRecording sys s).requests.Nodup := by
  rcases upload_requests_cases sys s with h | ⟨file, s1, size, s2, payload, -, -, -, h | h⟩
  · rw [h]; exact List.nodup_nil
  · rw [h]; exact List.nodup_singleton _
  · obtain ⟨resp1, s3, us1, -, -, h | h⟩ := h
    · rw [h]
      simp [createRequest_ne_dataRequest]
    · obtain ⟨resp2, s4, fi, payload3, -, -, -, h⟩ := h
      rw [h]
      simp [createRequest_ne_dataRequest, createRequest_ne_attachRequest,
        (attachRequest_ne_dataRequest sys s _ _ _).symm]

/-- Once the session is created and decoded, the data request follows the
create request, whatever happens later. -/
theorem upload_requests_create_data {σ : Type} (sys : Sys σ) (s s1 s2 s3 : σ) (file : OSFile)
    (size : Int) (payload : Bytes) (resp1 : Response) (us1 : UploadSession)
    (hopen : sys.osOpen (sys.getenv s "FILEPATH") s = (.ok file, s1))
    (hstat : sys.fileStat file s1 = (.ok size, s2))
    (hmar : sys.marshalUploadSession (sessionFor sys s size) = .ok payload)
    (hcreate : sys.doAPIRequest (createRequest sys s payload) s2 = (.ok resp1, s3))
    (hdec : sys.decodeUploadSession resp1 (sessionFor sys s size) = .ok (some us1)) :
    ∃ rest, (uploadRecording sys s).requests =
      createRequest sys s payload :: dataRequest sys s us1.Id file :: rest := by
  simp only [sessionFor] at hmar hdec
  rcases hdata : sys.doAPIRequest (dataRequest sys s us1.Id file) s3 with ⟨_ | resp2, s4⟩
  · exact ⟨[], by simp only [uploadRecording, hopen, hstat, hmar, hcreate, hdec, hdata]⟩
  rcases hfi : sys.decodeFileInfo resp2 with _ | fi
  · exact ⟨[], by simp only [uploadRecording, hopen, hstat, hmar, hcreate, hdec, hdata, hfi]⟩
  rcases hmar3 : sys.marshalRecordingJobInfo (jobFor sys s fi) with _ | payload3
  · simp only [jobFor] at hmar3
    exact ⟨[], by
      simp only [uploadRecording, hopen, hstat, hmar, hcreate, hdec, hdata, hfi, hmar3]⟩
  simp only [jobFor] at hmar3
  rcases hatt : sys.doAPIRequest (attachRequest sys s payload3) s4 with ⟨_ | resp3, s5⟩
  · exact ⟨[attachRequest sys s payload3], by
      simp only [uploadRecording, hopen, hstat, hmar, hcreate, hdec, hdata, hfi, hmar3, hatt]⟩
  · exact ⟨[attachRequest sys s payload3], by
      simp only [uploadRecording, hopen, hstat, hmar, hcreate, hdec, hdata, hfi, hmar3, hatt]⟩

/-- Once the payload is encoded, the create request is issued, whatever
happens later. -/
theorem upload_requests_create {σ : Type} (sys : Sys σ) (s s1 s2 : σ) (file : OSFile)
    (size : Int) (payload : Bytes)
    (hopen : sys.osOpen (sys.getenv s "FILEPATH") s = (.ok file, s1))
    (hstat : sys.fileStat file s1 = (.ok size, s2))
    (hmar : sys.marshalUploadSession (sessionFor sys s size) = .ok payload) :
    ∃ rest, (uploadRecording sys s).requests = createRequest sys s payload :: rest := by
  rcases hcreate : sys.doAPIRequest (createRequest sys s payload) s2 with ⟨_ | resp1, s3⟩
  · simp only [sessionFor] at hmar
    exact ⟨[], by simp only [uploadRecording, hopen, hstat, hmar, hcreate]⟩
  rcases hdec : sys.decodeUploadSession resp1 (sessionFor sys s size) with _ | _ | us1
  · simp only [sessionFor] at hmar hdec
    exact ⟨[], by simp only [uploadRecording, hopen, hstat, hmar, hcreate, hdec]⟩
  · simp only [sessionFor] at hmar hdec
    exact ⟨[], by simp only [uploadRecording, hopen, hstat, hmar, hcreate, hdec]⟩
  · obtain ⟨rest, h⟩ :=
      upload_requests_create_data sys s s1 s2 s3 file size payload resp1 us1
        hopen hstat hmar hcreate hdec
    exact ⟨_, h⟩

/-- Once the job description is encoded, all three requests are issued. -/
theorem upload_requests_all {σ : Type} (sys : Sys σ) (s s1 s2 s3 s4 : σ) (file : OSFile)
    (size : Int) (payload payload3 : Bytes) (resp1 resp2 : Response)
    (us1 : UploadSession) (fi : FileInfo)
    (hopen : sys.osOpen (sys.getenv s "FILEPATH") s = (.ok file, s1))
    (hstat : sys.fileStat file s1 = (.ok size, s2))
    (hmar : sys.marshalUploadSession (sessionFor sys s size) = .ok payload)
    (hcreate : sys.doAPIRequest (createRequest sys s payload) s2 = (.ok resp1, s3))
    (hdec : sys.decodeUploadSession resp1 (sessionFor sys s size) = .ok (some us1))
    (hdata : sys.doAPIRequest (dataRequest sys s us1.Id file) s3 = (.ok resp2, s4))
    (hfi : sys.decodeFileInfo resp2 = .ok fi)
    (hmar3 : sys.marshalRecordingJobInfo (jobFor sys s fi) = .ok payload3) :
    (uploadRecording sys s).requests =
      [createRequest sys s payload, dataRequest sys s us1.Id file,
        attachRequest sys s payload3] := by
  simp only [sessionFor, jobFor] at hmar hdec hmar3
  rcases hatt : sys.doAPIRequest (attachRequest sys s payload3) s4 with ⟨_ | resp3, s5⟩
  · simp only [uploadRecording, hopen, hstat, hmar, hcreate, hdec, hdata, hfi, hmar3, hatt]
  · simp only [uploadRecording, hopen, hstat, hmar, hcreate, hdec, hdata, hfi, hmar3, hatt]

/-! ## The claims on one attempt -/

/-- C4 (as the code has it): `uploadRecording` does not check the session
identifier.  When the session-create response decodes without error to a session
whose `Id` is empty, the data-transfer request is still issued, second, to
`<apiURL>/uploads/` (the empty identifier appended), reading the opened file.
Only an error of the decoder makes the call fail with "failed to decode response
body", and then the create request is the only request issued. -/
theorem uploadRecording_empty_session_id {σ : Type} (sys : Sys σ) (s s1 s2 s3 : σ)
    (file : OSFile) (size : Int) (payload : Bytes) (resp1 : Response)
    (hopen : sys.osOpen (sys.getenv s "FILEPATH") s = (.ok file, s1))
    (hstat : sys.fileStat file s1 = (.ok size, s2))
    (hmar : sys.marshalUploadSession
      { Id := "", ChannelId := sys.getenv s "CHANNEL_ID",
        Filename := sys.filepathBase (sys.getenv s "FILEPATH"), FileSize := size } = .ok payload)
    (hcreate : sys.doAPIRequest (createRequest sys s payload) s2 = (.ok resp1, s3)) :
    (∀ us1, sys.decodeUploadSession resp1
        { Id := "", ChannelId := sys.getenv s "CHANNEL_ID",
          Filename := sys.filepathBase (sys.getenv s "FILEPATH"), FileSize := size }
          = .ok (some us1) →
      us1.Id = "" →
      (uploadRecording sys s).requests[1]? = some (dataRequest sys s "" file) ∧
      (dataRequest sys s "" file).url =
        sys.clientURL (sys.getenv s "SITE_URL") ++ "/plugins/com.mattermost.calls/bot"
          ++ "/uploads/" ∧
      (dataRequest sys s "" file).body = .reader file) ∧
    (∀ e, sys.decodeUploadSession resp1
        { Id := "", ChannelId := sys.getenv s "CHANNEL_ID",
          Filename := sys.filepathBase (sys.getenv s "FILEPATH"), FileSize := size }
          = .error e →
      (uploadRecording sys s).result = .err (.wrap "failed to decode response body" e) ∧
      (uploadRecording sys s).requests = [createRequest sys s payload]) := by
  refine ⟨?_, ?_⟩
  · intro us1 hdec hid
    obtain ⟨rest, h⟩ := upload_requests_create_data sys s s1 s2 s3 file size payload resp1 us1
      hopen hstat hmar hcreate hdec
    rw [hid] at h
    refine ⟨by rw [h]; simp, ?_, rfl⟩
    simp only [dataRequest, apiURL_eq, String.append_assoc]
    rfl
  · intro e hdec
    constructor <;> simp only [uploadRecording, hopen, hstat, hmar, hcreate, hdec]

/-- The successful path of `uploadRecording`, on which the decoded session
pointer is not `nil`: when the file opens, its size is read, both payloads encode,
all three calls succeed and both responses decode (the first to a session `us1`,
the second to a file descriptor `fi`), `uploadRecording` returns `nil` after
issuing exactly
three requests, all `POST`: create to `<apiURL>/uploads`, upload to
`<apiURL>/uploads/<us1.Id>`, attach to `<apiURL>/calls/<channelId>/recordings`,
with `apiURL = <client URL>/plugins/com.mattermost.calls/bot`; the attach body is
the encoding of the job id, the post id and the one-element list `[fi.Id]`. -/
theorem uploadRecording_success_three_requests {σ : Type} (sys : Sys σ) (s s1 s2 s3 s4 s5 : σ)
    (file : OSFile) (size : Int) (payload payload3 : Bytes) (resp1 resp2 resp3 : Response)
    (us1 : UploadSession) (fi : FileInfo)
    (hopen : sys.osOpen (sys.getenv s "FILEPATH") s = (.ok file, s1))
    (hstat : sys.fileStat file s1 = (.ok size, s2))
    (hmar : sys.marshalUploadSession (sessionFor sys s size) = .ok payload)
    (hcreate : sys.doAPIRequest (createRequest sys s payload) s2 = (.ok resp1, s3))
    (hdec : sys.decodeUploadSession resp1 (sessionFor sys s size) = .ok (some us1))
    (hdata : sys.doAPIRequest (dataRequest sys s us1.Id file) s3 = (.ok resp2, s4))
    (hfi : sys.decodeFileInfo resp2 = .ok fi)
    (hmar3 : sys.marshalRecordingJobInfo
      { JobID := "zc5m3rn79iydfycnoa9gmj3cwe", FileIDs := [fi.Id],
        PostID := sys.getenv s "POST_ID" } = .ok payload3)
    (hattach : sys.doAPIRequest (attachRequest sys s payload3) s4 = (.ok resp3, s5)) :
    (uploadRecording sys s).result = .ok ∧
    (uploadRecording sys s).requests =
      [createRequest sys s payload, dataRequest sys s us1.Id file,
        attachRequest sys s payload3] ∧
    (uploadRecording sys s).requests.map Request.method = ["POST", "POST", "POST"] ∧
    (uploadRecording sys s).requests.map Request.url =
      [sys.clientURL (sys.getenv s "SITE_URL") ++ "/plugins/com.mattermost.calls/bot"
          ++ "/uploads",
        sys.clientURL (sys.getenv s "SITE_URL") ++ "/plugins/com.mattermost.calls/bot"
          ++ "/uploads/" ++ us1.Id,
        sys.clientURL (sys.getenv s "SITE_URL") ++ "/plugins/com.mattermost.calls/bot"
          ++ "/calls/" ++ sys.getenv s "CHANNEL_ID" ++ "/recordings"] ∧
    (uploadRecording sys s).requests.map Request.body =
      [.bytes payload, .reader file, .bytes payload3] := by
  have h := upload_all_ok sys s s1 s2 s3 s4 s5 file size payload payload3 resp1 resp2 resp3
    us1 fi hopen hstat hmar hcreate hdec hdata hfi hmar3 hattach
  rw [h]
  refine ⟨rfl, rfl, rfl, ?_, rfl⟩
  simp only [List.map_cons, List.map_nil, createRequest, dataRequest, attachRequest, apiURL_eq]

/-- C6: `uploadRecording` aborts on the first failure and retries nothing.  For
each of the seven steps (open, stat, create request, decode session, data
request, decode file info, attach request): when the steps before it succeed and
it fails with `e`, the call returns the error wrapping `e`, and the requests
issued are exactly those of the steps up to the failing one, each once, none of
a later step.  In every call, no request is issued twice. -/
theorem uploadRecording_aborts_on_first_failure {σ : Type} (sys : Sys σ) (s : σ) :
    (uploadRecording sys s).requests.Nodup ∧
    (∀ e t, sys.osOpen (sys.getenv s "FILEPATH") s = (.error e, t) →
      uploadRecording sys s = ⟨.err (.wrap "failed to open file" e), t, []⟩) ∧
    (∀ file s1, sys.osOpen (sys.getenv s "FILEPATH") s = (.ok file, s1) →
      (∀ e t, sys.fileStat file s1 = (.error e, t) →
        uploadRecording sys s = ⟨.err (.wrap "failed to stat file" e), t, []⟩) ∧
      ∀ size s2 payload, sys.fileStat file s1 = (.ok size, s2) →
        sys.marshalUploadSession (sessionFor sys s size) = .ok payload →
      (∀ e t, sys.doAPIRequest (createRequest sys s payload) s2 = (.error e, t) →
        uploadRecording sys s =
          ⟨.err (.wrap "failed to create upload" e), t, [createRequest sys s payload]⟩) ∧
      ∀ resp1 s3, sys.doAPIRequest (createRequest sys s payload) s2 = (.ok resp1, s3) →
      (∀ e, sys.decodeUploadSession resp1 (sessionFor sys s size) = .error e →
        uploadRecording sys s =
          ⟨.err (.wrap "failed to decode response body" e), s3,
            [createRequest sys s payload]⟩) ∧
      ∀ us1, sys.decodeUploadSession resp1 (sessionFor sys s size) = .ok (some us1) →
      (∀ e t, sys.doAPIRequest (dataRequest sys s us1.Id file) s3 = (.error e, t) →
        uploadRecording sys s =
          ⟨.err (.wrap "failed to upload data" e), t,
            [createRequest sys s payload, dataRequest sys s us1.Id file]⟩) ∧
      ∀ resp2 s4, sys.doAPIRequest (dataRequest sys s us1.Id file) s3 = (.ok resp2, s4) →
      (∀ e, sys.decodeFileInfo resp2 = .error e →
        uploadRecording sys s =
          ⟨.err (.wrap "failed to decode response body" e), s4,
            [createRequest sys s payload, dataRequest sys s us1.Id file]⟩) ∧
      ∀ fi payload3, sys.decodeFileInfo resp2 = .ok fi →
        sys.marshalRecordingJobInfo (jobFor sys s fi) = .ok payload3 →
      ∀ e t, sys.doAPIRequest (attachRequest sys s payload3) s4 = (.error e, t) →
        uploadRecording sys s =
          ⟨.err (.wrap "failed to save recording" e), t,
            [createRequest sys s payload, dataRequest sys s us1.Id file,
              attachRequest sys s payload3]⟩) := by
  refine ⟨upload_requests_nodup sys s, ?_, ?_⟩
  · intro e t hopen
    simp only [uploadRecording, hopen]
  intro file s1 hopen
  refine ⟨?_, ?_⟩
  · intro e t hstat
    simp only [uploadRecording, hopen, hstat]
  intro size s2 payload hstat hmar
  simp only [sessionFor] at hmar
  refine ⟨?_, ?_⟩
  · intro e t hcreate
    simp only [uploadRecording, hopen, hstat, hmar, hcreate]
  intro resp1 s3 hcreate
  refine ⟨?_, ?_⟩
  · intro e hdec
    simp only [sessionFor] at hdec
    simp only [uploadRecording, hopen, hstat, hmar, hcreate, hdec]
  intro us1 hdec
  simp only [sessionFor] at hdec
  refine ⟨?_, ?_⟩
  · intro e t hdata
    simp only [uploadRecording, hopen, hstat, hmar, hcreate, hdec, hdata]
  intro resp2 s4 hdata
  refine ⟨?_, ?_⟩
  · intro e hfi
    simp only [uploadRecording, hopen, hstat, hmar, hcreate, hdec, hdata, hfi]
  intro fi payload3 hfi hmar3 e t hatt
  simp only [jobFor] at hmar3
  simp only [uploadRecording, hopen, hstat, hmar, hcreate, hdec, hdata, hfi, hmar3, hatt]

/-- C7: for a source file whose size is read as `S`, once the session
description encodes, the first request `uploadRecording` issues is the create
request (`POST <apiURL>/uploads`) and its body is the encoding of the upload
session with `FileSize = S`, `ChannelId` the configured channel id and
`Filename` the base name of the configured file path; and every first request
of a call arises so. -/
theorem uploadRecording_create_body {σ : Type} (sys : Sys σ) (s : σ) :
    (∀ file s1 S s2 payload,
      sys.osOpen (sys.getenv s "FILEPATH") s = (.ok file, s1) →
      sys.fileStat file s1 = (.ok S, s2) →
      sys.marshalUploadSession
        { Id := "", ChannelId := sys.getenv s "CHANNEL_ID",
          Filename := sys.filepathBase (sys.getenv s "FILEPATH"), FileSize := S } = .ok payload →
      ∃ r, (uploadRecording sys s).requests.head? = some r ∧ r.body = .bytes payload ∧
        r.method = "POST" ∧
        r.url = sys.clientURL (sys.getenv s "SITE_URL") ++ "/plugins/com.mattermost.calls/bot"
          ++ "/uploads") ∧
    (∀ r, (uploadRecording sys s).requests.head? = some r →
      ∃ file s1 S s2 payload,
        sys.osOpen (sys.getenv s "FILEPATH") s = (.ok file, s1) ∧
        sys.fileStat file s1 = (.ok S, s2) ∧
        sys.marshalUploadSession
          { Id := "", ChannelId := sys.getenv s "CHANNEL_ID",
            Filename := sys.filepathBase (sys.getenv s "FILEPATH"), FileSize := S }
            = .ok payload ∧
        r.body = .bytes payload) := by
  refine ⟨?_, ?_⟩
  · intro file s1 S s2 payload hopen hstat hmar
    obtain ⟨rest, h⟩ := upload_requests_create sys s s1 s2 file S payload hopen hstat hmar
    refine ⟨createRequest sys s payload, by rw [h]; rfl, rfl, rfl, ?_⟩
    simp only [createRequest, apiURL_eq]
  · intro r hr
    rcases upload_requests_cases sys s with h | ⟨file, s1, S, s2, payload, hopen, hstat, hmar, h⟩
    · rw [h] at hr; cases hr
    refine ⟨file, s1, S, s2, payload, hopen, hstat, hmar, ?_⟩
    rcases h with h | ⟨resp1, s3, us1, -, -, h | ⟨resp2, s4, fi, payload3, -, -, -, h⟩⟩
    all_goals
      rw [h] at hr
      cases hr
      rfl

/-- C8 (as the code has it): `uploadRecording` does not check the file
identifier.  Every attach request it issues carries the encoding of a job whose
`FileIDs` is the one-element list holding the identifier decoded from the
data-transfer response, empty or not; and when that identifier is empty (and the
job encodes), the attach request is still issued, with `FileIDs = [""]`. -/
theorem uploadRecording_attach_file_id {σ : Type} (sys : Sys σ) (s : σ) :
    (∀ r3, (uploadRecording sys s).requests[2]? = some r3 →
      ∃ (file : OSFile) (us1 : UploadSession) (s3 : σ) (resp2 : Response) (s4 : σ)
          (fi : FileInfo) (payload3 : Bytes),
        sys.doAPIRequest (dataRequest sys s us1.Id file) s3 = (.ok resp2, s4) ∧
        sys.decodeFileInfo resp2 = .ok fi ∧
        sys.marshalRecordingJobInfo
          { JobID := "zc5m3rn79iydfycnoa9gmj3cwe", FileIDs := [fi.Id],
            PostID := sys.getenv s "POST_ID" } = .ok payload3 ∧
        r3 = attachRequest sys s payload3 ∧ r3.body = .bytes payload3) ∧
    (∀ (file : OSFile) (s1 : σ) (size : Int) (s2 : σ) (payload : Bytes) (resp1 : Response)
        (s3 : σ) (us1 : UploadSession) (resp2 : Response) (s4 : σ) (fi : FileInfo)
        (payload3 : Bytes),
      sys.osOpen (sys.getenv s "FILEPATH") s = (.ok file, s1) →
      sys.fileStat file s1 = (.ok size, s2) →
      sys.marshalUploadSession (sessionFor sys s size) = .ok payload →
      sys.doAPIRequest (createRequest sys s payload) s2 = (.ok resp1, s3) →
      sys.decodeUploadSession resp1 (sessionFor sys s size) = .ok (some us1) →
      sys.doAPIRequest (dataRequest sys s us1.Id file) s3 = (.ok resp2, s4) →
      sys.decodeFileInfo resp2 = .ok fi →
      fi.Id = "" →
      sys.marshalRecordingJobInfo
        { JobID := "zc5m3rn79iydfycnoa9gmj3cwe", FileIDs := [""],
          PostID := sys.getenv s "POST_ID" } = .ok payload3 →
      (uploadRecording sys s).requests =
        [createRequest sys s payload, dataRequest sys s us1.Id file,
          attachRequest sys s payload3]) := by
  refine ⟨?_, ?_⟩
  · intro r3 hr
    rcases upload_requests_cases sys s with h | ⟨file, s1, S, s2, payload, -, -, -, h⟩
    · rw [h] at hr; simp at hr
    rcases h with h | ⟨resp1, s3, us1, -, -, h | ⟨resp2, s4, fi, payload3, hdata, hfi, hmar3, h⟩⟩
    · rw [h] at hr; simp at hr
    · rw [h] at hr; simp at hr
    · rw [h] at hr
      simp at hr
      subst hr
      exact ⟨file, us1, s3, resp2, s4, fi, payload3, hdata, hfi, hmar3, rfl, rfl⟩
  · intro file s1 size s2 payload resp1 s3 us1 resp2 s4 fi payload3
      hopen hstat hmar hcreate hdec hdata hfi hid hmar3
    refine upload_requests_all sys s s1 s2 s3 s4 file size payload payload3 resp1 resp2 us1 fi
      hopen hstat hmar hcreate hdec hdata hfi ?_
    rw [jobFor, hid]
    exact hmar3

/-! ## The claims on the retry loop -/

/-- The run of `publishRecording` when the first `N + 1` calls fail. -/
theorem run_all_fail {σ : Type} (sys : Sys σ) (N : Nat) (d : Int) (s : σ) (fuel : Nat)
    (hN : (N : Int) ≤ maxInt64) (hfuel : N < fuel)
    (hfail : ∀ i, i ≤ N → (outcomeAt sys s i).kind = .failed) :
    ∃ w q e, publishRecording sys ⟨N, d⟩ fuel s =
      some ⟨.err maxRetryError, w, failTrace sys d s 0 N ++ [.upload q (.err e)]⟩ := by
  obtain ⟨f, rfl⟩ : ∃ f, fuel = (f + 1) + N := ⟨fuel - N - 1, by omega⟩
  obtain ⟨e, he⟩ := (kind_failed_iff _).1 (hfail N le_rfl)
  have h := loop_fail_steps sys N d hN N 0 s (f + 1) (by omega)
    (fun i hi => hfail i (by omega))
  rw [Nat.zero_add] at h
  rw [publishRecording]
  rw [show ((0 : Int)) = ((0 : Nat) : Int) from rfl, h,
    loop_exhausted sys ⟨N, d⟩ f N (worldBefore sys s N) e he rfl]
  exact ⟨_, _, _, rfl⟩

/-- The run of `publishRecording` when the first `n` calls fail and the next
one succeeds. -/
theorem run_success {σ : Type} (sys : Sys σ) (N : Nat) (d : Int) (s : σ) (n fuel : Nat)
    (hN : (N : Int) ≤ maxInt64) (hn : n ≤ N) (hfuel : n < fuel)
    (hfail : ∀ i, i < n → (outcomeAt sys s i).kind = .failed)
    (hok : outcomeAt sys s n = .ok) :
    ∃ w q, publishRecording sys ⟨N, d⟩ fuel s =
      some ⟨.ok, w, failTrace sys d s 0 n ++ [.upload q .ok]⟩ := by
  obtain ⟨f, rfl⟩ : ∃ f, fuel = (f + 1) + n := ⟨fuel - n - 1, by omega⟩
  have h := loop_fail_steps sys N d hN n 0 s (f + 1) (by omega) hfail
  rw [Nat.zero_add] at h
  rw [publishRecording]
  rw [show ((0 : Int)) = ((0 : Nat) : Int) from rfl, h,
    loop_ok sys ⟨N, d⟩ f n (worldBefore sys s n) hok]
  exact ⟨_, _, rfl⟩

/-- C1: with `maxUploadRetryAttempts = N ≥ 0`, if every call of
`uploadRecording` fails, `publishRecording` calls it exactly `N + 1` times and
then (the last event is the failed call, no sleep follows) returns the error
"max retry attempts reached, exiting". -/
theorem publishRecording_exhausts_after_succ_calls {σ : Type} (sys : Sys σ) (N : Nat)
    (d : Int) (s : σ) (fuel : Nat)
    (hN : (N : Int) ≤ maxInt64) (hfuel : N < fuel)
    (hfail : ∀ i, i ≤ N → (outcomeAt sys s i).kind = .failed) :
    ∃ run, publishRecording sys ⟨N, d⟩ fuel s = some run ∧
      run.result = .err (.leaf "max retry attempts reached, exiting") ∧
      invocations run.trace = N + 1 ∧
      ∃ q e, run.trace.getLast? = some (.upload q (.err e)) := by
  obtain ⟨w, q, e, h⟩ := run_all_fail sys N d s fuel hN hfuel hfail
  refine ⟨_, h, rfl, ?_, q, e, ?_⟩
  · simp [invocations_append, invocations_failTrace, invocations]
  · simp

/-- C2: with `maxUploadRetryAttempts = N ≥ 0` and `1 ≤ k ≤ N + 1`, if the first
`k - 1` calls of `uploadRecording` fail and the `k`-th returns `nil`,
`publishRecording` calls it exactly `k` times, the successful call being the
last thing it does, and returns `nil`. -/
theorem publishRecording_stops_at_success {σ : Type} (sys : Sys σ) (N : Nat) (d : Int)
    (s : σ) (k fuel : Nat)
    (hN : (N : Int) ≤ maxInt64) (hk1 : 1 ≤ k) (hk : k ≤ N + 1) (hfuel : k ≤ fuel)
    (hfail : ∀ i, i < k - 1 → (outcomeAt sys s i).kind = .failed)
    (hok : outcomeAt sys s (k - 1) = .ok) :
    ∃ run, publishRecording sys ⟨N, d⟩ fuel s = some run ∧
      run.result = .ok ∧
      invocations run.trace = k ∧
      ∃ q, run.trace.getLast? = some (.upload q .ok) := by
  obtain ⟨w, q, h⟩ := run_success sys N d s (k - 1) fuel hN (by omega) (by omega)
    hfail hok
  refine ⟨_, h, rfl, ?_, q, ?_⟩
  · simp [invocations_append, invocations_failTrace, invocations]; omega
  · simp

/-- C3 (as the code has it): with `maxUploadRetryAttempts = N ≥ 0` and base
delay `d`, every run of `publishRecording` ends within `N + 1` calls of
`uploadRecording`; calls and sleeps alternate; and for every `k ≥ 1` for which
a `(k+1)`-th call happens, the sleep between the `k`-th and the `(k+1)`-th call
is `d * k` computed in `int64` (wrapping).  When `0 ≤ d` and `d * N` does not
overflow, each wait is the exact product `d * k` and the sequence of waits is
non-decreasing. -/
theorem publishRecording_waits {σ : Type} (sys : Sys σ) (N : Nat) (d : Int) (s : σ)
    (fuel : Nat) (hN : (N : Int) ≤ maxInt64) (hfuel : N < fuel) :
    ∃ run, publishRecording sys ⟨N, d⟩ fuel s = some run ∧
      invocations run.trace ≤ N + 1 ∧
      run.trace.length + 1 = 2 * invocations run.trace ∧
      (∀ k, 1 ≤ k → k < invocations run.trace →
        (∃ q r, run.trace[2 * k - 2]? = some (.upload q r)) ∧
        run.trace[2 * k - 1]? = some (.sleep (wrapInt64 (d * k))) ∧
        (∃ q r, run.trace[2 * k]? = some (.upload q r))) ∧
      (0 ≤ d → d * N ≤ maxInt64 →
        (∀ k, 1 ≤ k → k < invocations run.trace → wrapInt64 (d * k) = d * k) ∧
        List.Sorted (fun x y => x ≤ y) (sleeps run.trace)) := by
  obtain ⟨run, hrun, h0, hlen, hinv, hsl, hpos⟩ :=
    loop_shape sys N d hN fuel 0 s (Nat.zero_le N) (by omega)
  have hexact : 0 ≤ d → d * N ≤ maxInt64 → ∀ k : Nat, k ≤ N → wrapInt64 (d * k) = d * k := by
    intro hd hhi k hk
    have hmin : minInt64 ≤ d * N :=
      le_trans (by unfold minInt64; omega) (mul_nonneg hd (Int.ofNat_nonneg N))
    obtain ⟨h1, h2⟩ := mul_inRange d k N hk hmin hhi
    exact wrapInt64_of_inRange _ h1 h2
  refine ⟨run, hrun, by omega, hlen, ?_, ?_⟩
  · intro k hk1 hk
    obtain ⟨j, rfl⟩ : ∃ j, k = j + 1 := ⟨k - 1, by omega⟩
    obtain ⟨hs, hu⟩ := hpos j hk
    have e1 : 2 * (j + 1) - 2 = 2 * j := by omega
    have e2 : 2 * (j + 1) - 1 = 2 * j + 1 := by omega
    have e3 : 2 * (j + 1) = 2 * j + 2 := by omega
    rw [e1, e2, e3]
    refine ⟨?_, ?_, hu⟩
    · cases j with
      | zero => exact h0
      | succ i =>
        have := (hpos i (by omega)).2
        have e4 : 2 * (i + 1) = 2 * i + 2 := by omega
        rw [e4]; exact this
    · rw [hs]
      simp
  · intro hd hhi
    refine ⟨fun k _ hk => hexact hd hhi k (by omega), ?_⟩
    rw [hsl]
    unfold List.Sorted
    rw [List.pairwise_map]
    refine List.Pairwise.imp_of_mem ?_ (List.pairwise_lt_range _)
    intro i j hi hj hij
    rw [List.mem_range] at hi hj
    rw [hexact hd hhi (0 + i + 1) (by omega), hexact hd hhi (0 + j + 1) (by omega)]
    apply mul_le_mul_of_nonneg_left _ hd
    exact_mod_cast (by omega : 0 + i + 1 ≤ 0 + j + 1)

/-- C9: `publishRecording` looks at nothing but success or failure of each
call.  For two worlds whose calls of `uploadRecording` end in the same kind
(`nil`, error, panic) at every position, whatever the error values, the two runs
have the same number of calls, the same waits and the same result; and a
non-nil result is always the one fixed exhaustion error. -/
theorem publishRecording_ignores_error_values {σ τ : Type} (sys1 : Sys σ) (sys2 : Sys τ)
    (vars : RetryVars) (fuel : Nat) (s1 : σ) (s2 : τ)
    (h : ∀ i, (outcomeAt sys1 s1 i).kind = (outcomeAt sys2 s2 i).kind) :
    (publishRecording sys1 vars fuel s1).map Run.summary =
      (publishRecording sys2 vars fuel s2).map Run.summary ∧
    (∀ run, publishRecording sys1 vars fuel s1 = some run → ∀ e, run.result = .err e →
      e = .leaf "max retry attempts reached, exiting") ∧
    (∀ run, publishRecording sys2 vars fuel s2 = some run → ∀ e, run.result = .err e →
      e = .leaf "max retry attempts reached, exiting") := by
  refine ⟨loop_summary_congr sys1 sys2 vars fuel 0 s1 s2 h, ?_, ?_⟩
  · intro run hrun e he
    rcases loop_result sys1 vars fuel 0 s1 run hrun with h1 | h1 | h1
    · rw [h1] at he; cases he
    · rw [h1] at he; cases he
    · rw [h1] at he; cases he; rfl
  · intro run hrun e he
    rcases loop_result sys2 vars fuel 0 s2 run hrun with h1 | h1 | h1
    · rw [h1] at he; cases he
    · rw [h1] at he; cases he
    · rw [h1] at he; cases he; rfl

/-- C10 (as the code has it): with `maxUploadRetryAttempts = N ≥ 0` and base
delay `d` such that `d * N` fits in `int64`, when every call of
`uploadRecording` fails, `publishRecording` calls `time.Sleep` exactly `N`
times before reporting exhaustion, no sleep follows the last failed call, and
the durations passed to `time.Sleep` sum to `d * N * (N + 1) / 2`; for `N = 20`
and `d = 5 * time.Second` that is `1050 * time.Second`. -/
theorem publishRecording_total_sleep {σ : Type} (sys : Sys σ) (N : Nat) (d : Int) (s : σ)
    (fuel : Nat) (hN : (N : Int) ≤ maxInt64) (hfuel : N < fuel)
    (hfail : ∀ i, i ≤ N → (outcomeAt sys s i).kind = .failed)
    (hlo : minInt64 ≤ d * N) (hhi : d * N ≤ maxInt64) :
    ∃ run, publishRecording sys ⟨N, d⟩ fuel s = some run ∧
      run.result = .err (.leaf "max retry attempts reached, exiting") ∧
      (sleeps run.trace).length = N ∧
      (∃ q e, run.trace.getLast? = some (.upload q (.err e))) ∧
      (sleeps run.trace).sum = d * N * (N + 1) / 2 ∧
      (N = 20 → d = 5 * second → (sleeps run.trace).sum = 1050 * second) := by
  obtain ⟨w, q, e, h⟩ := run_all_fail sys N d s fuel hN hfuel hfail
  have hsl : sleeps (failTrace sys d s 0 N ++ [Event.upload q (.err e)]) =
      (List.range N).map fun i => d * (((i + 1 : Nat)) : Int) := by
    rw [sleeps_append, sleeps_failTrace]
    simp only [sleeps, List.append_nil]
    apply List.map_congr_left
    intro i hi
    rw [List.mem_range] at hi
    obtain ⟨h1, h2⟩ := mul_inRange d (0 + i + 1) N (by omega) hlo hhi
    rw [wrapInt64_of_inRange _ h1 h2, Nat.zero_add]
  have hsum : (sleeps (failTrace sys d s 0 N ++ [Event.upload q (.err e)])).sum
      = d * N * (N + 1) / 2 := by
    rw [hsl]
    have h2 := sum_exact_waits d N
    omega
  refine ⟨_, h, rfl, ?_, ⟨q, e, by simp⟩, hsum, ?_⟩
  · show (sleeps (failTrace sys d s 0 N ++ [Event.upload q (.err e)])).length = N
    rw [hsl]; simp
  · intro hN20 hd
    show (sleeps (failTrace sys d s 0 N ++ [Event.upload q (.err e)])).sum = 1050 * second
    rw [hsum, hN20, hd]
    unfold second
    norm_num

/-! ## The program run on concrete inputs -/

theorem sim_open_fails (c : Script) (hc : c.failStep = 1) (w : Sim) :
    uploadRecording (sim c) w =
      ⟨.err (.wrap "failed to open file" (.leaf "no such file")),
        { w with opens := w.opens + 1 }, []⟩ := by
  simp [uploadRecording, sim, hc]

theorem sim_stat_fails (c : Script) (hc : c.failStep = 2) (ho : c.openFailures = 0) (w : Sim) :
    uploadRecording (sim c) w =
      ⟨.err (.wrap "failed to stat file" (.leaf "stat failed")),
        { w with opens := w.opens + 1 }, []⟩ := by
  simp [uploadRecording, sim, hc, ho]

theorem sim_open_fails_always (c : Script) (hc : c.failStep = 1) (i : Nat) :
    ∀ w : Sim, (outcomeAt (sim c) w i).kind = .failed := by
  induction i with
  | zero => intro w; rw [outcomeAt_zero, sim_open_fails c hc]; rfl
  | succ i ih => intro w; rw [outcomeAt_succ]; exact ih _

theorem sim_stat_fails_always (c : Script) (hc : c.failStep = 2) (ho : c.openFailures = 0)
    (i : Nat) : ∀ w : Sim, (outcomeAt (sim c) w i).kind = .failed := by
  induction i with
  | zero => intro w; rw [outcomeAt_zero, sim_stat_fails c hc ho]; rfl
  | succ i ih => intro w; rw [outcomeAt_succ]; exact ih _

/-- C1 at `N = 2` with a file that never opens: three calls, then the error. -/
theorem publishRecording_exhausts_after_succ_calls_witness :
    ∃ run, publishRecording (sim (scriptFailAt 1)) ⟨(2 : Nat), 5 * second⟩ 3 sim0 = some run ∧
      run.result = .err (.leaf "max retry attempts reached, exiting") ∧
      invocations run.trace = 2 + 1 ∧
      ∃ q e, run.trace.getLast? = some (.upload q (.err e)) :=
  publishRecording_exhausts_after_succ_calls (sim (scriptFailAt 1)) 2 (5 * second) sim0 3
    (by decide) (by decide) (by decide)

/-- C2 at `N = 20`, `k = 3`: fail, fail, succeed gives three calls and `nil`. -/
theorem publishRecording_stops_at_success_witness :
    ∃ run, publishRecording (sim scriptTwoFailures) ⟨(20 : Nat), 5 * second⟩ 21 sim0 = some run ∧
      run.result = .ok ∧
      invocations run.trace = 3 ∧
      ∃ q, run.trace.getLast? = some (.upload q .ok) :=
  publishRecording_stops_at_success (sim scriptTwoFailures) 20 (5 * second) sim0 3 21
    (by decide) (by decide) (by decide) (by decide) (by decide) (by decide)

/-- C3 at the default constants, on fail, fail, succeed: the run ends, calls and
sleeps alternate, the waits are `5s * 1` then `5s * 2`, non-decreasing. -/
theorem publishRecording_waits_witness :
    (publishRecording (sim scriptTwoFailures) ⟨(20 : Nat), 5 * second⟩ 21 sim0).map
        (fun r => sleeps r.trace) = some [5 * second * 1, 5 * second * 2] ∧
    ∃ run, publishRecording (sim scriptTwoFailures) ⟨(20 : Nat), 5 * second⟩ 21 sim0
        = some run ∧
      invocations run.trace ≤ 20 + 1 ∧
      run.trace.length + 1 = 2 * invocations run.trace ∧
      (∀ k : Nat, 1 ≤ k → k < invocations run.trace →
        (∃ q r, run.trace[2 * k - 2]? = some (.upload q r)) ∧
        run.trace[2 * k - 1]? = some (.sleep (wrapInt64 (5 * second * (k : Int)))) ∧
        (∃ q r, run.trace[2 * k]? = some (.upload q r))) ∧
      (0 ≤ 5 * second → 5 * second * ((20 : Nat) : Int) ≤ maxInt64 →
        (∀ k : Nat, 1 ≤ k → k < invocations run.trace →
          wrapInt64 (5 * second * (k : Int)) = 5 * second * (k : Int)) ∧
        List.Sorted (fun x y => x ≤ y) (sleeps run.trace)) :=
  ⟨by decide,
    publishRecording_waits (sim scriptTwoFailures) 20 (5 * second) sim0 21
      (by decide) (by decide)⟩

/-- C3 fails as stated: with the non-negative base delay `2^62` ns and `N = 2`,
when every call fails the two waits are `2^62` and then `-2^63` (the product
`2^62 * 2` overflows `int64`): the second wait is not `d * 2` and the sequence
decreases. -/
theorem publishRecording_waits_counterexample :
    (0 : Int) ≤ 4611686018427387904 ∧ (4611686018427387904 : Int) ≤ maxInt64 ∧
    (publishRecording (sim (scriptFailAt 1)) ⟨2, 4611686018427387904⟩ 3 sim0).map
        (fun r => sleeps r.trace) = some [4611686018427387904, -9223372036854775808] ∧
    (-9223372036854775808 : Int) ≠ 4611686018427387904 * 2 ∧
    ¬ List.Sorted (fun x y => x ≤ y) [(4611686018427387904 : Int), -9223372036854775808] := by
  refine ⟨by decide, by decide, by decide, by decide, ?_⟩
  simp [List.Sorted]

/-- C9 on a file that never opens against a file whose size can never be read:
the errors differ at every call, the runs do not. -/
theorem publishRecording_ignores_error_values_witness :
    outcomeAt (sim (scriptFailAt 1)) sim0 0 ≠ outcomeAt (sim (scriptFailAt 2)) sim0 0 ∧
    (publishRecording (sim (scriptFailAt 1)) defaultVars 30 sim0).map Run.summary =
      (publishRecording (sim (scriptFailAt 2)) defaultVars 30 sim0).map Run.summary ∧
    (∀ run, publishRecording (sim (scriptFailAt 1)) defaultVars 30 sim0 = some run →
      ∀ e, run.result = .err e → e = .leaf "max retry attempts reached, exiting") ∧
    (∀ run, publishRecording (sim (scriptFailAt 2)) defaultVars 30 sim0 = some run →
      ∀ e, run.result = .err e → e = .leaf "max retry attempts reached, exiting") :=
  ⟨by decide,
    publishRecording_ignores_error_values (sim (scriptFailAt 1)) (sim (scriptFailAt 2))
      defaultVars 30 sim0 sim0
      (fun i => by
        rw [sim_open_fails_always (scriptFailAt 1) rfl i sim0,
          sim_stat_fails_always (scriptFailAt 2) rfl rfl i sim0])⟩

/-- C10 at the default constants: twenty sleeps, 1050 seconds in all. -/
theorem publishRecording_total_sleep_witness :
    (⟨(20 : Nat), 5 * second⟩ : RetryVars) = defaultVars ∧
    ∃ run, publishRecording (sim (scriptFailAt 1)) ⟨(20 : Nat), 5 * second⟩ 21 sim0 = some run ∧
      run.result = .err (.leaf "max retry attempts reached, exiting") ∧
      (sleeps run.trace).length = 20 ∧
      (∃ q e, run.trace.getLast? = some (.upload q (.err e))) ∧
      (sleeps run.trace).sum = 1050 * second := by
  obtain ⟨run, h1, h2, h3, h4, _, h6⟩ :=
    publishRecording_total_sleep (sim (scriptFailAt 1)) 20 (5 * second) sim0 21
      (by decide) (by decide) (fun i _ => sim_open_fails_always (scriptFailAt 1) rfl i sim0)
      (by decide) (by decide)
  exact ⟨rfl, run, h1, h2, h3, h4, h6 rfl rfl⟩

/-- C10 fails as stated: with base delay `2^62` ns and `N = 2`, when every
call fails the two durations passed to `time.Sleep` sum to `-2^62`, not to
`d * 2 * 3 / 2`. -/
theorem publishRecording_total_sleep_counterexample :
    (∀ i, i ≤ 2 → (outcomeAt (sim (scriptFailAt 1)) sim0 i).kind = .failed) ∧
    (publishRecording (sim (scriptFailAt 1)) ⟨2, 4611686018427387904⟩ 3 sim0).map
        (fun r => (r.result, (sleeps r.trace).length, (sleeps r.trace).sum)) =
      some (.err maxRetryError, 2, -4611686018427387904) ∧
    (-4611686018427387904 : Int) ≠ 4611686018427387904 * 2 * (2 + 1) / 2 := by
  refine ⟨by decide, by decide, by decide⟩

/-- C4 fails as stated: the server answers the create request with a session
that has no identifier; the decoded session has an empty `Id`, yet
`uploadRecording` returns `nil` and its second request went to
`.../bot/uploads/`. -/
theorem uploadRecording_empty_session_id_counterexample :
    (sim scriptNoSessionId).doAPIRequest
        (createRequest (sim scriptNoSessionId) sim0 "c1,rec.mp4,1000") ⟨1, 0⟩
      = (.ok ⟨""⟩, ⟨1, 1⟩) ∧
    (sim scriptNoSessionId).decodeUploadSession ⟨""⟩ ⟨"", "c1", "rec.mp4", 1000⟩
      = .ok (some ⟨"", "c1", "rec.mp4", 1000⟩) ∧
    (uploadRecording (sim scriptNoSessionId) sim0).result = .ok ∧
    (uploadRecording (sim scriptNoSessionId) sim0).requests.map Request.url =
      ["http://mm/plugins/com.mattermost.calls/bot/uploads",
        "http://mm/plugins/com.mattermost.calls/bot/uploads/",
        "http://mm/plugins/com.mattermost.calls/bot/calls/c1/recordings"] :=
  ⟨rfl, rfl, by decide, by decide⟩

/-- C4 as amended, on the same server, and on one whose answer does not decode. -/
theorem uploadRecording_empty_session_id_witness :
    ((uploadRecording (sim scriptNoSessionId) sim0).requests[1]? =
        some (dataRequest (sim scriptNoSessionId) sim0 "" ⟨3⟩) ∧
      (dataRequest (sim scriptNoSessionId) sim0 "" ⟨3⟩).url =
        "http://mm/plugins/com.mattermost.calls/bot/uploads/" ∧
      (dataRequest (sim scriptNoSessionId) sim0 "" ⟨3⟩).body = .reader ⟨3⟩) ∧
    ((uploadRecording (sim (scriptFailAt 4)) sim0).result =
        .err (.wrap "failed to decode response body" (.leaf "unexpected EOF")) ∧
      (uploadRecording (sim (scriptFailAt 4)) sim0).requests =
        [createRequest (sim (scriptFailAt 4)) sim0 "c1,rec.mp4,1000"]) :=
  ⟨(uploadRecording_empty_session_id (sim scriptNoSessionId) sim0 ⟨1, 0⟩ ⟨1, 0⟩ ⟨1, 1⟩ ⟨3⟩
      1000 "c1,rec.mp4,1000" ⟨""⟩ rfl rfl rfl rfl).1 ⟨"", "c1", "rec.mp4", 1000⟩ rfl rfl,
    (uploadRecording_empty_session_id (sim (scriptFailAt 4)) sim0 ⟨1, 0⟩ ⟨1, 0⟩ ⟨1, 1⟩ ⟨3⟩
      1000 "c1,rec.mp4,1000" ⟨"s1"⟩ rfl rfl rfl rfl).2 (.leaf "unexpected EOF") rfl⟩

/-- The successful path on the end-to-end scenario: file `rec.mp4` of 1000
bytes, channel `c1`, post `p1`, all calls succeed. -/
theorem uploadRecording_success_three_requests_witness :
    (uploadRecording (sim scriptOk) sim0).result = .ok ∧
    (uploadRecording (sim scriptOk) sim0).requests.length = 3 ∧
    (uploadRecording (sim scriptOk) sim0).requests.map Request.url =
      ["http://mm/plugins/com.mattermost.calls/bot/uploads",
        "http://mm/plugins/com.mattermost.calls/bot/uploads/s1",
        "http://mm/plugins/com.mattermost.calls/bot/calls/c1/recordings"] ∧
    (sim scriptOk).marshalRecordingJobInfo
        { JobID := "zc5m3rn79iydfycnoa9gmj3cwe", FileIDs := ["f1"], PostID := "p1" }
      = .ok "zc5m3rn79iydfycnoa9gmj3cwe,f1,p1" ∧
    (uploadRecording (sim scriptOk) sim0).requests.map Request.body =
      [.bytes "c1,rec.mp4,1000", .reader ⟨3⟩, .bytes "zc5m3rn79iydfycnoa9gmj3cwe,f1,p1"] := by
  have h := uploadRecording_success_three_requests (sim scriptOk) sim0 ⟨1, 0⟩ ⟨1, 0⟩ ⟨1, 1⟩
    ⟨1, 2⟩ ⟨1, 3⟩ ⟨3⟩ 1000 "c1,rec.mp4,1000" "zc5m3rn79iydfycnoa9gmj3cwe,f1,p1" ⟨"s1"⟩ ⟨"f1"⟩
    ⟨""⟩ ⟨"s1", "c1", "rec.mp4", 1000⟩ ⟨"f1"⟩ rfl rfl rfl rfl rfl rfl rfl rfl rfl
  refine ⟨h.1, ?_, ?_, rfl, h.2.2.2.2⟩
  · rw [h.2.1]; rfl
  · rw [h.2.2.2.1]; decide

/-- C6 on seven servers, the `k`-th failing at step `k`. -/
theorem uploadRecording_aborts_on_first_failure_witness :
    uploadRecording (sim (scriptFailAt 1)) sim0 =
      ⟨.err (.wrap "failed to open file" (.leaf "no such file")), ⟨1, 0⟩, []⟩ ∧
    uploadRecording (sim (scriptFailAt 2)) sim0 =
      ⟨.err (.wrap "failed to stat file" (.leaf "stat failed")), ⟨1, 0⟩, []⟩ ∧
    uploadRecording (sim (scriptFailAt 3)) sim0 =
      ⟨.err (.wrap "failed to create upload" (.leaf "connection reset")), ⟨1, 1⟩,
        [createRequest (sim (scriptFailAt 3)) sim0 "c1,rec.mp4,1000"]⟩ ∧
    uploadRecording (sim (scriptFailAt 4)) sim0 =
      ⟨.err (.wrap "failed to decode response body" (.leaf "unexpected EOF")), ⟨1, 1⟩,
        [createRequest (sim (scriptFailAt 4)) sim0 "c1,rec.mp4,1000"]⟩ ∧
    uploadRecording (sim (scriptFailAt 5)) sim0 =
      ⟨.err (.wrap "failed to upload data" (.leaf "connection reset")), ⟨1, 2⟩,
        [createRequest (sim (scriptFailAt 5)) sim0 "c1,rec.mp4,1000",
          dataRequest (sim (scriptFailAt 5)) sim0 "s1" ⟨3⟩]⟩ ∧
    uploadRecording (sim (scriptFailAt 6)) sim0 =
      ⟨.err (.wrap "failed to decode response body" (.leaf "unexpected EOF")), ⟨1, 2⟩,
        [createRequest (sim (scriptFailAt 6)) sim0 "c1,rec.mp4,1000",
          dataRequest (sim (scriptFailAt 6)) sim0 "s1" ⟨3⟩]⟩ ∧
    uploadRecording (sim (scriptFailAt 7)) sim0 =
      ⟨.err (.wrap "failed to save recording" (.leaf "connection reset")), ⟨1, 3⟩,
        [createRequest (sim (scriptFailAt 7)) sim0 "c1,rec.mp4,1000",
          dataRequest (sim (scriptFailAt 7)) sim0 "s1" ⟨3⟩,
          attachRequest (sim (scriptFailAt 7)) sim0 "zc5m3rn79iydfycnoa9gmj3cwe,f1,p1"]⟩ :=
  ⟨(uploadRecording_aborts_on_first_failure (sim (scriptFailAt 1)) sim0).2.1 _ _ rfl,
    ((uploadRecording_aborts_on_first_failure (sim (scriptFailAt 2)) sim0).2.2
      ⟨3⟩ ⟨1, 0⟩ rfl).1 _ _ rfl,
    (((uploadRecording_aborts_on_first_failure (sim (scriptFailAt 3)) sim0).2.2
      ⟨3⟩ ⟨1, 0⟩ rfl).2 1000 ⟨1, 0⟩ "c1,rec.mp4,1000" rfl rfl).1 _ _ rfl,
    ((((uploadRecording_aborts_on_first_failure (sim (scriptFailAt 4)) sim0).2.2
      ⟨3⟩ ⟨1, 0⟩ rfl).2 1000 ⟨1, 0⟩ "c1,rec.mp4,1000" rfl rfl).2 ⟨"s1"⟩ ⟨1, 1⟩ rfl).1 _ rfl,
    (((((uploadRecording_aborts_on_first_failure (sim (scriptFailAt 5)) sim0).2.2
      ⟨3⟩ ⟨1, 0⟩ rfl).2 1000 ⟨1, 0⟩ "c1,rec.mp4,1000" rfl rfl).2 ⟨"s1"⟩ ⟨1, 1⟩ rfl).2
      ⟨"s1", "c1", "rec.mp4", 1000⟩ rfl).1 _ _ rfl,
    ((((((uploadRecording_aborts_on_first_failure (sim (scriptFailAt 6)) sim0).2.2
      ⟨3⟩ ⟨1, 0⟩ rfl).2 1000 ⟨1, 0⟩ "c1,rec.mp4,1000" rfl rfl).2 ⟨"s1"⟩ ⟨1, 1⟩ rfl).2
      ⟨"s1", "c1", "rec.mp4", 1000⟩ rfl).2 ⟨"f1"⟩ ⟨1, 2⟩ rfl).1 _ rfl,
    ((((((uploadRecording_aborts_on_first_failure (sim (scriptFailAt 7)) sim0).2.2
      ⟨3⟩ ⟨1, 0⟩ rfl).2 1000 ⟨1, 0⟩ "c1,rec.mp4,1000" rfl rfl).2 ⟨"s1"⟩ ⟨1, 1⟩ rfl).2
      ⟨"s1", "c1", "rec.mp4", 1000⟩ rfl).2 ⟨"f1"⟩ ⟨1, 2⟩ rfl).2 ⟨"f1"⟩
      "zc5m3rn79iydfycnoa9gmj3cwe,f1,p1" rfl rfl _ _ rfl⟩

/-- C7 on a file of 1000 bytes at `/tmp/rec.mp4` for channel `c1`. -/
theorem uploadRecording_create_body_witness :
    (sim scriptOk).marshalUploadSession
        { Id := "", ChannelId := "c1", Filename := "rec.mp4", FileSize := 1000 }
      = .ok "c1,rec.mp4,1000" ∧
    ∃ r, (uploadRecording (sim scriptOk) sim0).requests.head? = some r ∧
      r.body = .bytes "c1,rec.mp4,1000" ∧ r.method = "POST" ∧
      r.url = (sim scriptOk).clientURL ((sim scriptOk).getenv sim0 "SITE_URL")
        ++ "/plugins/com.mattermost.calls/bot" ++ "/uploads" :=
  ⟨rfl, (uploadRecording_create_body (sim scriptOk) sim0).1 ⟨3⟩ ⟨1, 0⟩ 1000 ⟨1, 0⟩
    "c1,rec.mp4,1000" rfl rfl rfl⟩

/-- C8 fails as stated: the server answers the data transfer with a file
descriptor that has no identifier; `uploadRecording` still issues the attach
request, with `FileIDs = [""]`, and returns `nil`. -/
theorem uploadRecording_attach_file_id_counterexample :
    (sim scriptNoFileId).doAPIRequest
        (dataRequest (sim scriptNoFileId) sim0 "s1" ⟨3⟩) ⟨1, 1⟩ = (.ok ⟨""⟩, ⟨1, 2⟩) ∧
    (sim scriptNoFileId).decodeFileInfo ⟨""⟩ = .ok ⟨""⟩ ∧
    (sim scriptNoFileId).marshalRecordingJobInfo
        { JobID := "zc5m3rn79iydfycnoa9gmj3cwe", FileIDs := [""], PostID := "p1" }
      = .ok "zc5m3rn79iydfycnoa9gmj3cwe,,p1" ∧
    (uploadRecording (sim scriptNoFileId) sim0).result = .ok ∧
    (uploadRecording (sim scriptNoFileId) sim0).requests[2]? =
      some (attachRequest (sim scriptNoFileId) sim0 "zc5m3rn79iydfycnoa9gmj3cwe,,p1") :=
  ⟨rfl, rfl, rfl, by decide, by decide⟩

/-- C8 as amended, on the same server. -/
theorem uploadRecording_attach_file_id_witness :
    (uploadRecording (sim scriptNoFileId) sim0).requests =
      [createRequest (sim scriptNoFileId) sim0 "c1,rec.mp4,1000",
        dataRequest (sim scriptNoFileId) sim0 "s1" ⟨3⟩,
        attachRequest (sim scriptNoFileId) sim0 "zc5m3rn79iydfycnoa9gmj3cwe,,p1"] :=
  (uploadRecording_attach_file_id (sim scriptNoFileId) sim0).2 ⟨3⟩ ⟨1, 0⟩ 1000 ⟨1, 0⟩
    "c1,rec.mp4,1000" ⟨"s1"⟩ ⟨1, 1⟩ ⟨"s1", "c1", "rec.mp4", 1000⟩ ⟨""⟩ ⟨1, 2⟩ ⟨""⟩
    "zc5m3rn79iydfycnoa9gmj3cwe,,p1" rfl rfl rfl rfl rfl rfl rfl rfl rfl

/-- C5 does not hold of the code: the file opens, every remote call succeeds
and every response decodes without error, but the create response is the JSON
literal `null`, so `Decode(&us)` leaves `us` nil and `us.Id` panics.
`uploadRecording` issues one request instead of three and does not return
`nil`; the panic ends `publishRecording` too, after that one call. -/
theorem uploadRecording_null_session_panics :
    simNullSession.osOpen (simNullSession.getenv sim0 "FILEPATH") sim0 = (.ok ⟨3⟩, ⟨1, 0⟩) ∧
    simNullSession.fileStat ⟨3⟩ ⟨1, 0⟩ = (.ok 1000, ⟨1, 0⟩) ∧
    (∀ r w, ∃ resp w1, simNullSession.doAPIRequest r w = (.ok resp, w1)) ∧
    simNullSession.doAPIRequest (createRequest simNullSession sim0 "c1,rec.mp4,1000") ⟨1, 0⟩
      = (.ok ⟨"null"⟩, ⟨1, 1⟩) ∧
    simNullSession.decodeUploadSession ⟨"null"⟩ ⟨"", "c1", "rec.mp4", 1000⟩ = .ok none ∧
    (∀ resp, ∃ fi, simNullSession.decodeFileInfo resp = .ok fi) ∧
    (uploadRecording simNullSession sim0).result = .panicked ∧
    (uploadRecording simNullSession sim0).requests =
      [createRequest simNullSession sim0 "c1,rec.mp4,1000"] ∧
    (publishRecording simNullSession defaultVars 21 sim0).map Run.summary =
      some ⟨.panicked, 1, []⟩ := by
  refine ⟨rfl, rfl, ?_, rfl, rfl, ?_, by decide, by decide, by decide⟩
  · intro r w
    exact ⟨_, _, rfl⟩
  · intro resp
    exact ⟨_, rfl⟩

end UploadBot
